import Mathlib

/-!
Verification of the authenticated-request lifecycle of the Ardnh/template
repository: the JWT helpers (`utils/jwt.go`), the login handler
(`handlers/auth_handler.go`), the user repository lookup
(`repositories/user_repository.go`), the role middleware
(`middleware/auth.go`) — all embedded from
`src/backend/go-simple-structure.sh` — and the client-side auth store
(`src/stores/auth.ts`) together with the axios response interceptor
(`src/api/client.ts`) from the frontend generator script.

Modelling conventions:
* Unix timestamps are `Int` seconds.  `time.Now()` becomes an explicit
  `now` argument (the Go code reads the clock ad hoc; all reads inside one
  call are treated as the same instant, which is exact at second
  granularity).
* HMAC-SHA256 is modelled as a perfect MAC: the tag is determined by the
  key and the signed payload and there are no collisions, so a tag is
  represented by the pair (key, payload).  This is the standard symbolic
  model; cryptographic collision-resistance is out of scope.
* bcrypt is likewise modelled as a perfect salted hash: the stored hash of
  a password `p` is `bcryptHashOf p`, and `bcrypt.CompareHashAndPassword`
  succeeds exactly on the hashed password.  `bcryptHashOf` is injective and
  its image is disjoint from plain passwords (it prepends a marker).
-/

namespace Jwt

/-- Claims carried by a token, after `type Claims struct` in `utils/jwt.go`:
`UserID`, `Email`, `Role` plus the registered claims the code sets
(`ExpiresAt`, `IssuedAt`, `NotBefore`). -/
structure Claims where
  userID : String
  email : String
  role : String
  expiresAt : Int
  issuedAt : Int
  notBefore : Int
deriving DecidableEq

/-- Symbolic HMAC-SHA256 tag over the encoded claims: perfect-MAC model,
the tag is the (key, payload) pair. -/
def hmacSign (secret : String) (c : Claims) : String × Claims :=
  (secret, c)

/-- A signed token: claims plus signature part, after
`jwt.NewWithClaims(jwt.SigningMethodHS256, claims)` followed by
`token.SignedString(jwtSecret)`. -/
structure Token where
  claims : Claims
  sig : String × Claims
deriving DecidableEq

/-- The fixed lifetime `time.Now().Add(24 * time.Hour)` in `GenerateJWT`,
in seconds.  `GenerateJWT` takes no ttl argument; this constant is the only
ttl the code can use. -/
def defaultTtlSeconds : Int := 86400

/-- `GenerateJWT(userID, email, role string) (string, error)` from
`utils/jwt.go`.  It builds `Claims` with `ExpiresAt = now + 24h`,
`IssuedAt = now`, `NotBefore = now` and signs with the package-level
`jwtSecret`.  The only fallible step, `SignedString` with an HS256 method
and a `[]byte` key, cannot fail, so the embedding is a total function. -/
def GenerateJWT (secret userID email role : String) (now : Int) : Token :=
  let c : Claims :=
    { userID := userID, email := email, role := role,
      expiresAt := now + defaultTtlSeconds, issuedAt := now,
      notBefore := now }
  { claims := c, sig := hmacSign secret c }

/-- Failure cases of `ValidateJWT`, i.e. of `jwt.ParseWithClaims` in
golang-jwt/jwt v5: signature mismatch, `ErrTokenExpired` (the default
validator requires `now < exp`, zero leeway) and `ErrTokenNotValidYet`
(the default validator requires `nbf <= now`).  `iat` is not validated by
default in v5 and the code passes no `WithIssuedAt` option.  Structured
tokens cannot be malformed in this embedding. -/
inductive VerifyError where
  | signatureInvalid
  | expired
  | notYetValid
deriving DecidableEq

/-- `ValidateJWT(tokenString string) (*Claims, error)` from `utils/jwt.go`:
parse, verify the HMAC signature against `jwtSecret`, then run the v5
default claim validation (`exp` checked first, then `nbf`, matching the
order of `Validator.Validate`). -/
def ValidateJWT (secret : String) (now : Int) (tok : Token) :
    Except VerifyError Claims :=
  if tok.sig ≠ hmacSign secret tok.claims then
    .error .signatureInvalid
  else if tok.claims.expiresAt ≤ now then
    .error .expired
  else if now < tok.claims.notBefore then
    .error .notYetValid
  else
    .ok tok.claims

end Jwt

namespace Backend

/-- `models.User`, restricted to the fields the auth flow reads.
`Password` stores the bcrypt hash, never the raw secret. -/
structure User where
  id : String
  email : String
  password : String
  name : String
  role : String
  isActive : Bool
deriving DecidableEq

/-- Perfect-hash model of bcrypt: the stored digest of a password.  The
`"$2a$10$"` marker keeps digests disjoint from plaintext and makes the
function injective. -/
def bcryptHashOf (pw : String) : String :=
  String.append "$2a$10$" pw

/-- `bcrypt.CompareHashAndPassword(hash, pw) == nil` in the perfect-hash
model: succeeds exactly when `hash` is the digest of `pw`. -/
def bcryptCompare (hash pw : String) : Bool :=
  hash == bcryptHashOf pw

/-- `UserRepository.GetByEmail` from `repositories/user_repository.go`:
`Where("email = ?", email).First(&user)`; on `gorm.ErrRecordNotFound` it
returns `nil, nil` — a missing user is NOT reported through the error
value.  Healthy-database runs are modelled, so the only outcomes are the
first matching user or `none`. -/
def GetByEmail (db : List User) (email : String) : Option User :=
  db.find? (fun u => u.email == email)

/-- Outcome of the `Login` handler.  `response s m` is
`utils.ErrorResponse(c, s, m)` with HTTP status `s` and message `m`;
`success` is the 200 `SuccessResponse` carrying the token and the user
fields; `nilDeref` is a Go runtime panic: `user` is a nil pointer and the
handler evaluates `user.Password`. -/
inductive LoginResult where
  | response (status : Nat) (message : String)
  | success (token : Jwt.Token) (id email name role : String)
  | nilDeref
deriving DecidableEq

/-- `AuthHandler.Login` from `handlers/auth_handler.go`, starting after
body parsing and struct validation (both are independent of the principal
store).  The handler then, in source order:
1. `GetByEmail` — on a missing user the repository yields `nil, nil`, the
   `err != nil` branch is skipped, and step 2 dereferences the nil `user`;
2. `bcrypt.CompareHashAndPassword` — mismatch gives 401 Invalid
   credentials;
3. `!user.IsActive` — gives 403 Account is inactive;
4. `utils.GenerateJWT(user.ID.String(), user.Email, user.Role)` and the 200
   response. -/
def Login (db : List User) (secret : String) (now : Int)
    (email password : String) : LoginResult :=
  match GetByEmail db email with
  | none => .nilDeref
  | some user =>
    if !(bcryptCompare user.password password) then
      .response 401 "Invalid credentials"
    else if !user.isActive then
      .response 403 "Account is inactive"
    else
      .success (Jwt.GenerateJWT secret user.id user.email user.role now)
        user.id user.email user.name user.role

end Backend

namespace Middleware

/-- Outcome of a middleware handler: `next` is `c.Next()`, the others are
the early JSON error returns with their HTTP status. -/
inductive GateOutcome where
  | next
  | unauthorized (message : String)
  | forbidden (message : String)
deriving DecidableEq

/-- `AdminOnly()` from `middleware/auth.go`.  Its input is
`c.Locals("role")`: `none` when no auth middleware has populated the
context, `some r` for an authenticated request whose token carried role
`r`.  `nil` locals give 401 Unauthorized; a role other than `"admin"`
gives 403 Admin access required; otherwise the request proceeds. -/
def AdminOnly (role : Option String) : GateOutcome :=
  match role with
  | none => .unauthorized "Unauthorized"
  | some r =>
    if r ≠ "admin" then .forbidden "Admin access required"
    else .next

end Middleware

namespace Client

/-- `response.user` of the `AuthResponse` interface in `api/auth/index.ts`. -/
structure UserInfo where
  id : String
  name : String
  email : String
deriving DecidableEq

/-- `AuthResponse` from `api/auth/index.ts`: the login payload the store
consumes. -/
structure AuthResponse where
  token : String
  user : UserInfo
deriving DecidableEq

/-- The reactive state of the pinia store `useAuthStore` in
`stores/auth.ts`: the refs `token`, `user`, `loading`. -/
structure AuthState where
  token : Option String
  user : Option UserInfo
  loading : Bool
deriving DecidableEq

/-- Whole client state: the store refs plus the `"token"` key of the
persistent `localStorage` collaborator, which the store reads at startup
and writes on login and logout. -/
structure ClientState where
  auth : AuthState
  storage : Option String
deriving DecidableEq

/-- Store setup code: `token = ref(localStorage.getItem("token"))`,
`user = ref(null)`, `loading = ref(false)` — runs on every app start. -/
def initAuthState (storage : Option String) : AuthState :=
  { token := storage, user := none, loading := false }

/-- The computed getter `isAuthenticated = computed(() => !!token.value)`.
JavaScript double negation: `null` and the empty string are both falsy, so
a present-but-empty token does not count as authenticated. -/
def isAuthenticated (s : AuthState) : Bool :=
  match s.token with
  | none => false
  | some t => !(t == "")

/-- `useAuthStore.login(credentials)`.  The `authApi.login` call either
resolves to an `AuthResponse` or rejects; the settled promise is the
`api` argument.  The body sets `loading = true`, and in the `try` block on
success assigns `token`, `user` and `localStorage.setItem("token", ...)`;
there is no `catch`, so a rejection leaves those untouched and propagates
to the caller (the returned `Option String` is the propagated error); the
`finally` block resets `loading = false` on both paths. -/
def login (cs : ClientState) (api : Except String AuthResponse) :
    ClientState × Option String :=
  match api with
  | .ok r =>
    ({ auth := { token := some r.token, user := some r.user,
                 loading := false },
       storage := some r.token }, none)
  | .error e =>
    ({ cs with auth := { cs.auth with loading := false } }, some e)

/-- `useAuthStore.logout()`: `token.value = null`, `user.value = null`,
`localStorage.removeItem("token")`.  It never throws. -/
def logout (cs : ClientState) : ClientState :=
  { auth := { token := none, user := none, loading := cs.auth.loading },
    storage := none }

/-- The axios response interceptor error path of `api/client.ts` for a 401
response (the distinguished discard-credential marker):
`localStorage.removeItem("token")` then `window.location.href = "/login"`.
The location assignment is a full document navigation, so the pinia store
is torn down and re-created by its setup code on the next load, reading the
(now cleared) `"token"` key of `localStorage`. -/
def onRejected (_cs : ClientState) : ClientState :=
  let storageAfter : Option String := none
  { storage := storageAfter, auth := initAuthState storageAfter }

end Client

namespace Demo

/-- A principal store holding one active account, used to evaluate the
login handler on concrete inputs. -/
def alice : Backend.User :=
  { id := "1", email := "alice@example.com",
    password := Backend.bcryptHashOf "correctpw", name := "Alice",
    role := "user", isActive := true }

/-- Store containing only `alice`. -/
def aliceDb : List Backend.User := [alice]

/-- A disabled account, used to evaluate the order of the secret and
active checks. -/
def bobInactive : Backend.User :=
  { id := "2", email := "bob@example.com",
    password := Backend.bcryptHashOf "bobpw", name := "Bob",
    role := "user", isActive := false }

/-- Store containing only the disabled `bobInactive`. -/
def inactiveDb : List Backend.User := [bobInactive]

/-- Client state reached by a successful login whose response carries an
empty-string token: reachable because the store accepts any
`AuthResponse.token` verbatim. -/
def emptyTokenState : Client.ClientState :=
  (Client.login { auth := Client.initAuthState none, storage := none }
    (.ok { token := "",
           user := { id := "1", name := "N", email := "n@example.com" } })).1

end Demo

/-- C1: enumeration resistance fails in the code, and the failure is a
slip, not a design choice.  `GetByEmail` returns `nil, nil` for a missing
user, so `Login` skips its `err != nil` branch (which would have produced
the 401 Invalid credentials response) and dereferences the nil `user`
pointer at `bcrypt.CompareHashAndPassword` — a runtime panic — while an
existing user with a wrong secret gets 401 Invalid credentials.  The two
outcomes are distinguishable, contradicting the claim; the handler's own
error branch shows the intended collapse to Invalid credentials. -/
theorem login_unknown_vs_wrong_secret_diverge :
    Backend.Login Demo.aliceDb "k" 0 "ghost@example.com" "anything" =
      .nilDeref
    ∧ Backend.Login Demo.aliceDb "k" 0 "alice@example.com" "wrong-secret" =
      .response 401 "Invalid credentials"
    ∧ (Backend.LoginResult.nilDeref ≠
        Backend.LoginResult.response 401 "Invalid credentials") := by
  refine ⟨rfl, rfl, by simp⟩

/-- C4: scope enforcement is distinct from authentication.  For every
populated (authenticated) context whose role is not `"admin"`, `AdminOnly`
returns the 403 Forbidden outcome — never a 401 Unauthorized one — and it
admits the request when the role is `"admin"`. -/
theorem adminOnly_scope_enforcement (r : String) (h : r ≠ "admin") :
    Middleware.AdminOnly (some r) = .forbidden "Admin access required"
    ∧ (∀ m, Middleware.AdminOnly (some r) ≠ .unauthorized m)
    ∧ Middleware.AdminOnly (some "admin") = .next := by
  refine ⟨by simp [Middleware.AdminOnly, h], ?_, by simp [Middleware.AdminOnly]⟩
  intro m
  simp [Middleware.AdminOnly, h]

/-- C4 witness: a context with role `"user"` is Forbidden, and an
`"admin"` context is admitted. -/
theorem adminOnly_scope_enforcement_witness :
    Middleware.AdminOnly (some "user") = .forbidden "Admin access required"
    ∧ Middleware.AdminOnly (some "admin") = .next :=
  ⟨(adminOnly_scope_enforcement "user" (by decide)).1,
   (adminOnly_scope_enforcement "user" (by decide)).2.2⟩

/-- C5 counterexample: the claim says a disabled account fails with
AccountDisabled regardless of the supplied secret, but the handler
compares the secret first: the disabled `bobInactive` with a wrong secret
gets 401 Invalid credentials, not the 403 Account is inactive response. -/
theorem login_inactive_wrong_secret_not_disabled :
    Backend.Login Demo.inactiveDb "k" 0 "bob@example.com" "not-bobpw" =
      .response 401 "Invalid credentials"
    ∧ Backend.Login Demo.inactiveDb "k" 0 "bob@example.com" "not-bobpw" ≠
      .response 403 "Account is inactive" := by
  refine ⟨rfl, by decide⟩

/-- C5 amended: in the code the secret comparison (step 3 of the spec)
precedes the disabled-account check: a resolved principal with a
non-matching secret fails with Invalid credentials even when inactive, and
the 403 Account is inactive response is produced exactly when the secret
matches and `active == false`. -/
theorem login_secret_check_precedes_active_check
    (db : List Backend.User) (secret : String) (now : Int)
    (email pw : String) (u : Backend.User)
    (hfind : Backend.GetByEmail db email = some u) :
    (Backend.bcryptCompare u.password pw = false →
      Backend.Login db secret now email pw =
        .response 401 "Invalid credentials")
    ∧ (Backend.bcryptCompare u.password pw = true → u.isActive = false →
      Backend.Login db secret now email pw =
        .response 403 "Account is inactive") := by
  unfold Backend.Login
  rw [hfind]
  constructor
  · intro h
    simp [h]
  · intro h hact
    simp [h, hact]

/-- C5 witness: the disabled `bobInactive` with the matching secret gets
the 403 Account is inactive response. -/
theorem login_secret_check_precedes_active_check_witness :
    Backend.Login Demo.inactiveDb "k" 0 "bob@example.com" "bobpw" =
      .response 403 "Account is inactive" :=
  (login_secret_check_precedes_active_check Demo.inactiveDb "k" 0
    "bob@example.com" "bobpw" Demo.bobInactive (by decide)).2
    (by decide) (by decide)

/-- C2 counterexample: the claim quantifies over every time strictly
before `expiresAt`, but `GenerateJWT` also sets `NotBefore = issuedAt` and
the v5 validator checks it: verifying at time 0 a token issued at time 100
fails with the not-valid-yet error even though 0 is strictly before its
expiry. -/
theorem validate_before_issuedAt_fails :
    Jwt.ValidateJWT "k" 0 (Jwt.GenerateJWT "k" "u7" "u7@example.com" "user" 100)
      = .error .notYetValid
    ∧ (0 : Int) <
      (Jwt.GenerateJWT "k" "u7" "u7@example.com" "user" 100).claims.expiresAt := by
  refine ⟨rfl, by decide⟩

/-- C2 amended: the codec round-trips on the window the code actually
accepts: for every subject, email, scope and issue time, verification at
any time from `issuedAt` (the token's `NotBefore`) up to but excluding
`expiresAt = issuedAt + 86400` (the fixed 24-hour ttl — `GenerateJWT`
takes no ttl argument) succeeds and returns exactly the issued claims,
in particular the same `userID` and `role`. -/
theorem validate_generate_roundtrip
    (secret uid email role : String) (now t : Int)
    (h1 : now ≤ t) (h2 : t < now + Jwt.defaultTtlSeconds) :
    Jwt.ValidateJWT secret t (Jwt.GenerateJWT secret uid email role now) =
      .ok { userID := uid, email := email, role := role,
            expiresAt := now + Jwt.defaultTtlSeconds, issuedAt := now,
            notBefore := now } := by
  have hlt : ¬ (now + Jwt.defaultTtlSeconds ≤ t) := by omega
  have hnb : ¬ (t < now) := by omega
  simp [Jwt.ValidateJWT, Jwt.GenerateJWT, Jwt.hmacSign, hlt, hnb]

/-- C2 witness: round-trip at issue time 0, verification time 1. -/
theorem validate_generate_roundtrip_witness :
    Jwt.ValidateJWT "wk" 1 (Jwt.GenerateJWT "wk" "wu" "wu@example.com" "user" 0) =
      .ok { userID := "wu", email := "wu@example.com", role := "user",
            expiresAt := 0 + Jwt.defaultTtlSeconds, issuedAt := 0,
            notBefore := 0 } :=
  validate_generate_roundtrip "wk" "wu" "wu@example.com" "user" 0 1
    (by decide) (by decide)

/-- C3 counterexample: the claim's validity characterisation — valid iff
`now < expiresAt` and the signature verifies — is refuted by the
`NotBefore` check: a token issued at time 200 has a correct signature and
time 150 is before its expiry, yet validation does not succeed. -/
theorem validity_iff_missing_notBefore :
    (Jwt.ValidateJWT "k2" 150
        (Jwt.GenerateJWT "k2" "v" "v@example.com" "user" 200)).isOk = false
    ∧ (Jwt.GenerateJWT "k2" "v" "v@example.com" "user" 200).sig =
      Jwt.hmacSign "k2"
        (Jwt.GenerateJWT "k2" "v" "v@example.com" "user" 200).claims
    ∧ (150 : Int) <
      (Jwt.GenerateJWT "k2" "v" "v@example.com" "user" 200).claims.expiresAt := by
  refine ⟨rfl, rfl, by decide⟩

/-- C3 amended: with the fixed ttl T = 86400, a token issued at `now`
verifies successfully at `now + T - 1` and fails with the expired error at
every time at or after `now + T`; and a credential is valid exactly when
its signature verifies against the issuer secret, `notBefore <= now`, and
`now < expiresAt` (the code also enforces the token's `NotBefore`). -/
theorem expiry_boundary_and_validity
    (secret uid email role : String) (now t : Int) (tok : Jwt.Token) :
    (Jwt.ValidateJWT secret (now + Jwt.defaultTtlSeconds - 1)
        (Jwt.GenerateJWT secret uid email role now)).isOk = true
    ∧ (now + Jwt.defaultTtlSeconds ≤ t →
        Jwt.ValidateJWT secret t (Jwt.GenerateJWT secret uid email role now) =
          .error .expired)
    ∧ ((Jwt.ValidateJWT secret t tok).isOk = true ↔
        (tok.sig = Jwt.hmacSign secret tok.claims
          ∧ tok.claims.notBefore ≤ t ∧ t < tok.claims.expiresAt)) := by
  refine ⟨?_, ?_, ?_⟩
  · have hlt : ¬ (now + Jwt.defaultTtlSeconds ≤ now + Jwt.defaultTtlSeconds - 1) := by
      omega
    have hnb : ¬ (now + Jwt.defaultTtlSeconds - 1 < now) := by
      simp [Jwt.defaultTtlSeconds]
      omega
    simp [Jwt.ValidateJWT, Jwt.GenerateJWT, Jwt.hmacSign, hlt, hnb,
      Except.isOk, Except.toBool]
  · intro h
    simp [Jwt.ValidateJWT, Jwt.GenerateJWT, Jwt.hmacSign, h]
  · by_cases hs : tok.sig = Jwt.hmacSign secret tok.claims
    · by_cases he : tok.claims.expiresAt ≤ t
      · simp [Jwt.ValidateJWT, hs, he, Except.isOk, Except.toBool]
      · by_cases hn : t < tok.claims.notBefore
        · simp [Jwt.ValidateJWT, hs, he, hn, Except.isOk, Except.toBool]
        · simp [Jwt.ValidateJWT, hs, he, hn, Except.isOk, Except.toBool]
          omega
    · simp [Jwt.ValidateJWT, hs, Except.isOk, Except.toBool]

/-- C3 witness: at exactly `issuedAt + 86400` the verdict is the expired
error. -/
theorem expiry_boundary_witness :
    Jwt.ValidateJWT "ek" 86400 (Jwt.GenerateJWT "ek" "eu" "eu@example.com" "user" 0)
      = .error .expired :=
  (expiry_boundary_and_validity "ek" "eu" "eu@example.com" "user" 0 86400
    (Jwt.GenerateJWT "ek" "eu" "eu@example.com" "user" 0)).2.1 (by decide)

/-- C6: issuance never fails — `GenerateJWT` takes no ttl argument, its
lifetime is the fixed constant `defaultTtlSeconds = 86400 > 0` (the spec's
`ttl <= 0` failure branch is therefore unreachable), and the embedding is
a total function because the only fallible step, `SignedString` with an
HS256 method and a `[]byte` key, cannot fail.  Every produced token has
`issuedAt = now`, `expiresAt = now + 86400`, carries the given subject and
scope, and its signature is the MAC of its claims under the process-wide
secret. -/
theorem generateJWT_always_succeeds
    (secret uid email role : String) (now : Int) :
    0 < Jwt.defaultTtlSeconds
    ∧ (Jwt.GenerateJWT secret uid email role now).claims.issuedAt = now
    ∧ (Jwt.GenerateJWT secret uid email role now).claims.expiresAt =
      now + Jwt.defaultTtlSeconds
    ∧ (Jwt.GenerateJWT secret uid email role now).claims.userID = uid
    ∧ (Jwt.GenerateJWT secret uid email role now).claims.role = role
    ∧ (Jwt.GenerateJWT secret uid email role now).sig =
      Jwt.hmacSign secret (Jwt.GenerateJWT secret uid email role now).claims :=
  ⟨by decide, rfl, rfl, rfl, rfl, rfl⟩

/-- C7: session reconciliation.  From any client state, after a
successful login stores a credential (the store token becomes the
response token), processing the discard-credential rejection — the 401
interceptor clears the persisted token and navigates, so the store is
re-created from the cleared storage — leaves both the store token and the
persisted token absent. -/
theorem onRejected_clears_store
    (cs : Client.ClientState) (r : Client.AuthResponse) :
    (Client.login cs (.ok r)).1.auth.token = some r.token
    ∧ (Client.onRejected (Client.login cs (.ok r)).1).auth.token = none
    ∧ (Client.onRejected (Client.login cs (.ok r)).1).storage = none :=
  ⟨rfl, rfl, rfl⟩

/-- C8: idempotent logout.  `logout` is a total function (it cannot
throw); from any starting state the store token and the persisted token
are absent after the first call, applying it a second time is a no-op, and
the token is still absent afterwards. -/
theorem logout_idempotent (cs : Client.ClientState) :
    Client.logout (Client.logout cs) = Client.logout cs
    ∧ (Client.logout cs).auth.token = none
    ∧ (Client.logout (Client.logout cs)).auth.token = none
    ∧ (Client.logout cs).storage = none :=
  ⟨rfl, rfl, rfl, rfl⟩

/-- C9: client-side login is atomic on failure.  When the underlying API
call rejects, the stored token, the stored user and the persisted
localStorage token are unchanged, `loading` is reset to false by the
finally block, and the rejection propagates to the caller (there is no
catch). -/
theorem login_failure_atomic (cs : Client.ClientState) (e : String) :
    (Client.login cs (.error e)).1.auth.token = cs.auth.token
    ∧ (Client.login cs (.error e)).1.auth.user = cs.auth.user
    ∧ (Client.login cs (.error e)).1.storage = cs.storage
    ∧ (Client.login cs (.error e)).1.auth.loading = false
    ∧ (Client.login cs (.error e)).2 = some e :=
  ⟨rfl, rfl, rfl, rfl, rfl⟩

/-- C10 counterexample: `isAuthenticated` is `!!token.value`, and the
empty string is falsy in JavaScript.  The state reached by a successful
login whose response token is `""` holds a non-null token yet reports
`isAuthenticated = false`, refuting the claimed equivalence with
non-nullness. -/
theorem isAuthenticated_empty_token :
    Demo.emptyTokenState.auth.token ≠ none
    ∧ Client.isAuthenticated Demo.emptyTokenState.auth = false := by
  refine ⟨by decide, rfl⟩

/-- C10 amended: in every state of the store — hence after the initial
load from persistent storage, successful login, failed login, and
logout — `isAuthenticated` is true exactly when the stored token is
non-null AND non-empty (JavaScript truthiness of the token string). -/
theorem isAuthenticated_iff_token_nonempty (s : Client.AuthState) :
    Client.isAuthenticated s = true ↔
      ∃ t, s.token = some t ∧ t ≠ "" := by
  rcases s with ⟨tok, u, l⟩
  cases tok with
  | none => simp [Client.isAuthenticated]
  | some t => simp [Client.isAuthenticated]
